import Mathlib

/-!
Shallow embedding of the billing-service repository.

The repository holds two variants of a billing core:
* Variant A (src/routes/invoices.py): a usage aggregator.  `generate_invoice`
  filters usage sessions by billing period, groups them by (agent_name, model),
  prices token counts, and builds an invoice; `update_invoice_status` patches the
  status; `billing_summary` rolls invoices and external team-cost data up.
* Variant B (src/main.py, src/models/invoice.py, src/clients/payments.py): a
  payment-to-invoice converter.  `Invoice.from_payment` turns one payment record
  into an invoice, `add_payment` appends further payments, and
  `get_reconciliation` sums completed payments.

Python floats are modelled as exact rationals; Python's `round` is modelled as
round-half-to-even at the given decimal precision (`pyRound`).  Timestamps are
modelled as integers ordered like the datetimes they stand for.  Dynamically
typed dict-shaped payment records (variant B) are modelled as association lists
of `PyVal`; a missing key is a `KeyError`, an ill-typed operation a `TypeError`,
mirroring the Python evaluation order of the source.
-/

namespace Billing

/-- Round-half-to-even of a rational to the nearest integer, as Python's
built-in `round` behaves on the scaled value. -/
def roundHalfEven (q : ℚ) : ℤ :=
  let f := ⌊q⌋
  let r := q - f
  if r < 1/2 then f
  else if 1/2 < r then f + 1
  else if f % 2 = 0 then f else f + 1

/-- Python `round(x, n)`: round to `n` decimal digits, ties to even. -/
def pyRound (q : ℚ) (n : ℕ) : ℚ :=
  (roundHalfEven (q * 10 ^ n) : ℚ) / 10 ^ n

/-- Predicate: `q` is an integer multiple of `10 ^ (-n)`. -/
def DecMult (n : ℕ) (q : ℚ) : Prop := ∃ m : ℤ, q = (m : ℚ) / 10 ^ n

instance {ε α : Type} [DecidableEq ε] [DecidableEq α] : DecidableEq (Except ε α) := fun x y =>
  match x, y with
  | .error a, .error b =>
      if h : a = b then .isTrue (congrArg Except.error h)
      else .isFalse (fun hc => h (Except.error.inj hc))
  | .ok a, .ok b =>
      if h : a = b then .isTrue (congrArg Except.ok h)
      else .isFalse (fun hc => h (Except.ok.inj hc))
  | .error _, .ok _ => .isFalse (fun hc => Except.noConfusion hc)
  | .ok _, .error _ => .isFalse (fun hc => Except.noConfusion hc)

/-! ## Variant A: usage aggregator (src/routes/invoices.py)

A usage session as returned by the gateway (a JSON object).  Fields read with
`s.get(key, default)` in the source are `Option`s here; `started_at` is read
with `s["started_at"]` and parsed with `datetime.fromisoformat`, so it is kept
as a required, already-parsed timestamp. -/
structure Session where
  agent_name : Option String
  model : Option String
  input_tokens : Option ℤ
  output_tokens : Option ℤ
  cached_tokens : Option ℤ
  started_at : ℤ
deriving DecidableEq, Repr

/-- Enum `InvoiceStatus` from src/models/invoice.py. -/
inductive InvoiceStatus where
  | draft
  | issued
  | paid
  | overdue
  | cancelled
deriving DecidableEq, Repr

/-- Lookup `InvoiceStatus(status)`: a string among the enum values; `none`
models the `ValueError` Python raises for an unknown value. -/
def InvoiceStatus.fromString : String → Option InvoiceStatus
  | "draft" => some .draft
  | "issued" => some .issued
  | "paid" => some .paid
  | "overdue" => some .overdue
  | "cancelled" => some .cancelled
  | _ => none

/-- Token pricing from src/config.py (`Settings`). -/
structure Settings where
  input_token_price : ℚ
  output_token_price : ℚ
  cached_token_price : ℚ
deriving DecidableEq, Repr

/-- The default pricing constants of src/config.py. -/
def defaultSettings : Settings :=
  { input_token_price := 3/1000
    output_token_price := 15/1000
    cached_token_price := 15/100000 }

/-- A team record from the gateway (`get_teams`); only the fields the routes
read.  `monthly_budget` is read with `.get`, so it is optional. -/
structure Team where
  id : String
  name : String
  monthly_budget : Option ℚ
deriving DecidableEq, Repr

/-- Schema `GenerateInvoiceRequest` from src/schemas.py. -/
structure GenerateInvoiceRequest where
  team_id : String
  period_start : ℤ
  period_end : ℤ
  tax_rate : ℚ
  notes : Option String
deriving DecidableEq, Repr

/-- A line item of a usage invoice (`InvoiceLineItem` columns as populated by
`generate_invoice`; the generated invoice id is left out of the model). -/
structure UsageLineItem where
  description : String
  agent_name : String
  model : String
  session_count : ℕ
  input_tokens : ℤ
  output_tokens : ℤ
  cached_tokens : ℤ
  amount : ℚ
deriving DecidableEq, Repr

/-- A usage invoice (`Invoice` ORM columns as populated by `generate_invoice`;
the uuid-generated id and the `now()` timestamps are left out of the model). -/
structure UsageInvoice where
  team_id : String
  team_name : String
  period_start : ℤ
  period_end : ℤ
  total_sessions : ℕ
  total_input_tokens : ℤ
  total_output_tokens : ℤ
  total_cached_tokens : ℤ
  subtotal : ℚ
  tax_rate : ℚ
  tax_amount : ℚ
  total_amount : ℚ
  status : InvoiceStatus
  notes : Option String
  line_items : List UsageLineItem
deriving DecidableEq, Repr

/-- Errors `generate_invoice` signals via `HTTPException`. -/
inductive GenError where
  | gatewayError
  | noSessionsInPeriod
deriving DecidableEq, Repr

/-- The HTTP status code each `GenError` is surfaced with. -/
def GenError.httpStatus : GenError → ℕ
  | .gatewayError => 502
  | .noSessionsInPeriod => 404

/-- The grouping key: `(s.get("agent_name", "unknown"), s.get("model", "unknown"))`. -/
def sessionKey (s : Session) : String × String :=
  (s.agent_name.getD "unknown", s.model.getD "unknown")

/-- Test `request.period_start <= started <= request.period_end` (both inclusive). -/
def inPeriod (req : GenerateInvoiceRequest) (s : Session) : Bool :=
  decide (req.period_start ≤ s.started_at) && decide (s.started_at ≤ req.period_end)

/-- The keys of a Python dict built by inserting each session's key in order:
first-occurrence order, each key once. -/
def firstOccKeys (ss : List Session) : List (String × String) :=
  ss.foldl (fun ks s => if sessionKey s ∈ ks then ks else ks ++ [sessionKey s]) []

/-- The members of an insertion-ordered group: `defaultdict(list)` appends each
session to its key's list in traversal order. -/
def groupOf (ss : List Session) (k : String × String) : List Session :=
  ss.filter (fun s => sessionKey s = k)

/-- The line item `generate_invoice` builds for one group. -/
def buildLineItem (pricing : Settings) (k : String × String) (group : List Session) :
    UsageLineItem :=
  let input_tok : ℤ := (group.map (fun s => s.input_tokens.getD 0)).sum
  let output_tok : ℤ := (group.map (fun s => s.output_tokens.getD 0)).sum
  let cached_tok : ℤ := (group.map (fun s => s.cached_tokens.getD 0)).sum
  let amount := pyRound
    ((input_tok : ℚ) / 1000 * pricing.input_token_price
      + (output_tok : ℚ) / 1000 * pricing.output_token_price
      + (cached_tok : ℚ) / 1000 * pricing.cached_token_price) 6
  { description := k.1 ++ " on " ++ k.2
    agent_name := k.1
    model := k.2
    session_count := group.length
    input_tokens := input_tok
    output_tokens := output_tok
    cached_tokens := cached_tok
    amount := amount }

/-- Route `generate_invoice` (src/routes/invoices.py, the computation between the
gateway fetch and the database write).  `sessionsResult` and `teamsResult`
stand for the two gateway calls; an `Except.error` is a raised exception. -/
def generate_invoice (pricing : Settings) (req : GenerateInvoiceRequest)
    (sessionsResult : Except Unit (List Session))
    (teamsResult : Except Unit (List Team)) :
    Except GenError UsageInvoice :=
  match sessionsResult with
  | .error _ => .error .gatewayError
  | .ok sessions =>
    let period_sessions := sessions.filter (inPeriod req)
    if period_sessions.isEmpty then .error .noSessionsInPeriod
    else
      let team_name :=
        match teamsResult with
        | .error _ => req.team_id
        | .ok teams =>
          match teams.find? (fun t => t.id = req.team_id) with
          | some t => t.name
          | none => req.team_id
      let line_items := (firstOccKeys period_sessions).map
        (fun k => buildLineItem pricing k (groupOf period_sessions k))
      let subtotal := (line_items.map (fun li => li.amount)).sum
      let tax_amount := pyRound (subtotal * req.tax_rate) 2
      let total_amount := pyRound (subtotal + tax_amount) 2
      .ok
        { team_id := req.team_id
          team_name := team_name
          period_start := req.period_start
          period_end := req.period_end
          total_sessions := period_sessions.length
          total_input_tokens := (period_sessions.map (fun s => s.input_tokens.getD 0)).sum
          total_output_tokens := (period_sessions.map (fun s => s.output_tokens.getD 0)).sum
          total_cached_tokens := (period_sessions.map (fun s => s.cached_tokens.getD 0)).sum
          subtotal := pyRound subtotal 6
          tax_rate := req.tax_rate
          tax_amount := tax_amount
          total_amount := total_amount
          status := .issued
          notes := req.notes
          line_items := line_items }

/-- The two-session scenario of the repository's own test suite. -/
def wSessions : List Session :=
  [ { agent_name := some "code-reviewer", model := some "gpt-4o"
      input_tokens := some 5000, output_tokens := some 2000, cached_tokens := some 500
      started_at := 100 }
  , { agent_name := some "bug-fixer", model := some "gpt-4o"
      input_tokens := some 3000, output_tokens := some 1000, cached_tokens := some 200
      started_at := 200 } ]

def wTeams : List Team := [{ id := "team_eng", name := "Engineering", monthly_budget := some 5000 }]

def wReq : GenerateInvoiceRequest :=
  { team_id := "team_eng", period_start := 0, period_end := 1000, tax_rate := 1/10, notes := none }

/-- The invoice `generate_invoice` produces on the test scenario (extracted
from the result; evaluating it gives subtotal 13821/200000, tax 1/100 and
total 2/25). -/
def wInvoice : UsageInvoice :=
  match generate_invoice defaultSettings wReq (.ok wSessions) (.ok wTeams) with
  | .ok inv => inv
  | .error _ =>
    { team_id := "", team_name := "", period_start := 0, period_end := 0
      total_sessions := 0, total_input_tokens := 0, total_output_tokens := 0
      total_cached_tokens := 0, subtotal := 0, tax_rate := 0, tax_amount := 0
      total_amount := 0, status := .draft, notes := none, line_items := [] }

/-! ## `update_invoice_status` (src/routes/invoices.py, PATCH /invoices/id) -/

/-- Errors `update_invoice_status` can signal: the 404 for an unknown invoice
id, and the `ValueError` `InvoiceStatus(status)` raises on an unknown status
value (surfaced as a 500). -/
inductive UpdateError where
  | notFound
  | valueError
deriving DecidableEq, Repr

/-- Route `update_invoice_status`: look the invoice up (modelled as the lookup's
result), then set `invoice.status = InvoiceStatus(status)` unconditionally. -/
def update_invoice_status (found : Option UsageInvoice) (status : String) :
    Except UpdateError UsageInvoice :=
  match found with
  | none => .error .notFound
  | some invoice =>
    match InvoiceStatus.fromString status with
    | none => .error .valueError
    | some st => .ok { invoice with status := st }

/-- A concrete invoice whose status is `paid`. -/
def wPaidInvoice : UsageInvoice :=
  { team_id := "team_eng", team_name := "Engineering"
    period_start := 0, period_end := 1000
    total_sessions := 2
    total_input_tokens := 8000, total_output_tokens := 3000, total_cached_tokens := 700
    subtotal := 13821/200000, tax_rate := 1/10, tax_amount := 1/100, total_amount := 2/25
    status := .paid, notes := none
    line_items := [] }

/-- The claimed forward order of statuses: draft (0) → issued (1) →
paid/overdue/cancelled (2). -/
def statusRank : InvoiceStatus → ℕ
  | .draft => 0
  | .issued => 1
  | .paid => 2
  | .overdue => 2
  | .cancelled => 2

/-! ## `billing_summary` (src/routes/invoices.py, GET /billing/summary) -/

/-- An entry of the gateway's `get_cost_by_team` response; every field is read
with `.get` and a default. -/
structure CostEntry where
  team_id : Option String
  total_sessions : Option ℤ
  total_cost : Option ℚ
deriving DecidableEq, Repr

/-- Schema `TeamCostSummary` from src/schemas.py. -/
structure TeamCostSummary where
  team_id : String
  team_name : String
  total_sessions : ℤ
  total_cost : ℚ
  budget : ℚ
  budget_used_pct : ℚ
deriving DecidableEq, Repr

/-- Schema `BillingSummary` from src/schemas.py.  `invoices_by_status` is the
status-to-count mapping, modelled as an association list over exactly the
statuses present. -/
structure BillingSummary where
  total_revenue : ℚ
  total_invoices : ℕ
  invoices_by_status : List (InvoiceStatus × ℕ)
  top_teams : List TeamCostSummary
deriving DecidableEq, Repr

/-- The distinct statuses present among the stored invoices, one per GROUP BY
row (SQL row order is unspecified; first-occurrence order is used here). -/
def statusesPresent (invoices : List UsageInvoice) : List InvoiceStatus :=
  invoices.foldl (fun acc i => if i.status ∈ acc then acc else acc ++ [i.status]) []

/-- Query `SELECT status, COUNT(id) ... GROUP BY status` over the stored invoices. -/
def statusCounts (invoices : List UsageInvoice) : List (InvoiceStatus × ℕ) :=
  (statusesPresent invoices).map
    (fun st => (st, (invoices.filter (fun i => i.status = st)).length))

/-- Route `billing_summary`: revenue, counts and the status breakdown come from the
stored invoices; the top-teams section comes from the two gateway calls,
modelled together as `gatewayResult` (`.error` = either call raised).  The
whole `try` block is guarded by `except Exception: pass`, leaving `top_teams`
empty on failure.  `team_map.get(tid, {})` is a Python dict built from the
team list, so the last binding of an id wins (`reverse.find?`). -/
def billing_summary (invoices : List UsageInvoice)
    (gatewayResult : Except Unit (List CostEntry × List Team)) : BillingSummary :=
  let total_revenue := (invoices.map (fun i => i.total_amount)).sum
  let total_invoices := invoices.length
  let invoices_by_status := statusCounts invoices
  let top_teams :=
    match gatewayResult with
    | .error _ => []
    | .ok (cost_data, teams) =>
      (cost_data.take 5).map (fun entry =>
        let tid := entry.team_id.getD ""
        let team := teams.reverse.find? (fun t => t.id = tid)
        let mb := team.bind (fun t => t.monthly_budget)
        { team_id := tid
          team_name := match team with | some t => t.name | none => tid
          total_sessions := entry.total_sessions.getD 0
          total_cost := entry.total_cost.getD 0
          budget := mb.getD 0
          budget_used_pct := pyRound
            (match mb with
              | some b => if b = 0 then 0 else entry.total_cost.getD 0 / b * 100
              | none => 0) 1 })
  { total_revenue := total_revenue
    total_invoices := total_invoices
    invoices_by_status := invoices_by_status
    top_teams := top_teams }

/-! ## Variant B: payment-to-invoice converter
(src/models/invoice.py, src/main.py, src/clients/payments.py)

Payment records are dynamically typed dicts; `PyVal` models the values the
payment code inspects, and a record is an association list (keys unique, as in
a Python dict). -/

inductive PyVal where
  | str : String → PyVal
  | num : ℚ → PyVal
  | dict : List (String × PyVal) → PyVal

/-- Python `d.get(k)`-style lookup in a dict with unique keys. -/
def dictGet (d : List (String × PyVal)) (k : String) : Option PyVal :=
  (d.find? (fun p => p.1 = k)).map (fun p => p.2)

/-- Errors the dynamically typed payment code raises. -/
inductive PyError where
  | keyError : String → PyError
  | typeError : PyError
deriving DecidableEq, Repr

/-- Python `d[k]` on a dict: the value, or `KeyError` when the key is absent. -/
def dictIndex (d : List (String × PyVal)) (k : String) : Except PyError PyVal :=
  match dictGet d k with
  | some v => .ok v
  | none => .error (.keyError k)

/-- Python `v[k]` on an arbitrary value: indexing a non-dict raises `TypeError`. -/
def getIndex (v : PyVal) (k : String) : Except PyError PyVal :=
  match v with
  | .dict d => dictIndex d k
  | _ => .error .typeError

/-- Python `+` as the payment code can hit it: numbers add, strings
concatenate, anything else raises `TypeError`. -/
def pyAdd : PyVal → PyVal → Except PyError PyVal
  | .num a, .num b => .ok (.num (a + b))
  | .str a, .str b => .ok (.str (a ++ b))
  | _, _ => .error .typeError

/-- Python `str(v)` as the f-strings use it.  The records the spec describes carry
strings in the formatted fields, so only the `str` case is exercised; the
other cases stand in for Python's repr of a non-string value. -/
def pyStr : PyVal → String
  | .str s => s
  | .num q => toString q
  | .dict _ => "\x7b...\x7d"

/-- Dataclass `InvoiceLineItem` from src/models/invoice.py.  `amount` and
`payment_transaction_id` hold whatever value the payment dict supplied. -/
structure PaymentLineItem where
  description : String
  amount : PyVal
  payment_transaction_id : PyVal

/-- Dataclass `Invoice` from src/models/invoice.py. -/
structure PaymentInvoice where
  invoice_id : String
  customer_name : String
  line_items : List PaymentLineItem
  status : InvoiceStatus
  issued_at : Option ℤ
  total_amount : PyVal

/-- Method `Invoice.from_payment`.  The uuid-generated id and `datetime.now` are
passed in as `invoice_id` and `now`.  Field accesses happen in source order:
`amount.value`, `first_name`, `last_name`, `payment_reference`. -/
def from_payment (invoice_id : String) (now : ℤ)
    (payment_data : List (String × PyVal)) : Except PyError PaymentInvoice := do
  let amount ← dictIndex payment_data "amount" >>= fun v => getIndex v "value"
  let fn ← dictIndex payment_data "first_name"
  let ln ← dictIndex payment_data "last_name"
  let payment_reference ← dictIndex payment_data "payment_reference"
  .ok
    { invoice_id := invoice_id
      customer_name := (pyStr fn ++ " " ++ pyStr ln).trim
      line_items := [{ description := "Payment " ++ pyStr payment_reference
                       amount := amount
                       payment_transaction_id := payment_reference }]
      status := .issued
      issued_at := some now
      total_amount := amount }

/-- Method `Invoice.add_payment`: build the line item, append it, and add the amount
onto `total_amount`.  (In Python a `TypeError` from the `+=` would strike after
the append already mutated the list; the model treats the method as one
fallible step, which agrees with the source on every input where `+` is
defined.) -/
def add_payment (self : PaymentInvoice) (payment_data : List (String × PyVal)) :
    Except PyError PaymentInvoice := do
  let ref ← dictIndex payment_data "payment_reference"
  let value ← dictIndex payment_data "amount" >>= fun v => getIndex v "value"
  let line_item : PaymentLineItem :=
    { description := "Payment " ++ pyStr ref
      amount := value
      payment_transaction_id := ref }
  let newTotal ← pyAdd self.total_amount value
  .ok { self with line_items := self.line_items ++ [line_item], total_amount := newTotal }

/-- A well-formed payment record in the payments-API shape. -/
def wPayment : List (String × PyVal) :=
  [("payment_reference", .str "pay_001"),
   ("amount", .dict [("value", .num 100), ("currency", .str "USD")]),
   ("first_name", .str "Alice"),
   ("last_name", .str "Smith"),
   ("status", .str "completed"),
   ("created_at", .str "2025-01-01T00:00:00+00:00")]

/-- Record `wPayment` with its `amount` entry removed. -/
def wPaymentNoAmount : List (String × PyVal) :=
  [("payment_reference", .str "pay_001"),
   ("first_name", .str "Alice"),
   ("last_name", .str "Smith")]

/-- Record `wPayment` with the `value` entry removed from the nested amount. -/
def wPaymentNoValue : List (String × PyVal) :=
  [("payment_reference", .str "pay_001"),
   ("amount", .dict [("currency", .str "USD")]),
   ("first_name", .str "Alice"),
   ("last_name", .str "Smith")]

/-- Record `wPayment` with its `first_name` entry removed. -/
def wPaymentNoFirst : List (String × PyVal) :=
  [("payment_reference", .str "pay_001"),
   ("amount", .dict [("value", .num 100)]),
   ("last_name", .str "Smith")]

/-- Record `wPayment` with its `last_name` entry removed. -/
def wPaymentNoLast : List (String × PyVal) :=
  [("payment_reference", .str "pay_001"),
   ("amount", .dict [("value", .num 100)]),
   ("first_name", .str "Alice")]

/-- Record `wPayment` with its `payment_reference` entry removed. -/
def wPaymentNoRef : List (String × PyVal) :=
  [("amount", .dict [("value", .num 100)]),
   ("first_name", .str "Alice"),
   ("last_name", .str "Smith")]

/-- A second well-formed payment record. -/
def wPayment2 : List (String × PyVal) :=
  [("payment_reference", .str "pay_002"),
   ("amount", .dict [("value", .num 55), ("currency", .str "USD")]),
   ("first_name", .str "Bob"),
   ("last_name", .str "Jones")]

/-- A concrete starting invoice for the append scenario. -/
def wBaseInvoice : PaymentInvoice :=
  { invoice_id := "inv_0"
    customer_name := "Alice Smith"
    line_items := [{ description := "Payment pay_000"
                     amount := .num 10
                     payment_transaction_id := .str "pay_000" }]
    status := .issued
    issued_at := some 0
    total_amount := .num 10 }

/-! ## Reconciliation (src/main.py `get_reconciliation` over
`PaymentsClient.list_completed_payments`) -/

mutual
/-- Python `==` on the values the reconciliation set comprehension compares
(dict entries compared in order; the route only ever reaches strings). -/
def pyEq : PyVal → PyVal → Bool
  | .str a, .str b => a == b
  | .num a, .num b => a == b
  | .dict a, .dict b => pyEqEntries a b
  | _, _ => false

def pyEqEntries : List (String × PyVal) → List (String × PyVal) → Bool
  | [], [] => true
  | (k1, v1) :: t1, (k2, v2) :: t2 => k1 == k2 && pyEq v1 v2 && pyEqEntries t1 t2
  | _, _ => false
end

/-- The reshaping `list_completed_payments` applies to one row of the
upstream `/payments?status=completed` response: exactly the four keys
`payment_reference`, `amount`, `first_name`, `last_name` are read with
`p[...]` and packed into a new dict — `customer_name` is not among them. -/
def completedPaymentRow (p : List (String × PyVal)) :
    Except PyError (List (String × PyVal)) := do
  let ref ← dictIndex p "payment_reference"
  let amount ← dictIndex p "amount"
  let fn ← dictIndex p "first_name"
  let ln ← dictIndex p "last_name"
  .ok [("payment_reference", ref), ("amount", amount),
       ("first_name", fn), ("last_name", ln)]

/-- Client method `PaymentsClient.list_completed_payments` applied to the rows the upstream
service returned. -/
def list_completed_payments (rows : List (List (String × PyVal))) :
    Except PyError (List (List (String × PyVal))) :=
  rows.mapM completedPaymentRow

/-- Schema `ReconciliationResponse` from src/main.py. -/
structure ReconciliationResponse where
  total_revenue : PyVal
  invoice_count : ℕ
  customers : List PyVal

/-- Errors `get_reconciliation` can end in: the client call raising (mapped to
a 502), or an uncaught exception in the route body (a 500). -/
inductive RecError where
  | paymentsApiError
  | uncaught : PyError → RecError
deriving DecidableEq, Repr

/-- Python `sum(p["amount"] for p in ps)`: interleaves lookups and additions as the
generator does, starting from `0`. -/
def sumAmounts (ps : List (List (String × PyVal))) : Except PyError PyVal :=
  ps.foldlM (fun acc p => dictIndex p "amount" >>= pyAdd acc) (.num 0)

/-- Python `list({p["customer_name"] for p in ps})`: every row's `customer_name`,
deduplicated by equality (members in first-iteration order; CPython's set
order is unspecified). -/
def customerNames (ps : List (List (String × PyVal))) :
    Except PyError (List PyVal) := do
  let names ← ps.mapM (fun p => dictIndex p "customer_name")
  .ok (names.foldl (fun acc v => if acc.any (fun w => pyEq w v) then acc else acc ++ [v]) [])

/-- Route `get_reconciliation` (src/main.py): 502 if the client call raised,
otherwise `total_revenue` then `customers` are computed in source order and
any exception propagates. -/
def get_reconciliation (paymentsResult : Except Unit (List (List (String × PyVal)))) :
    Except RecError ReconciliationResponse :=
  match paymentsResult with
  | .error _ => .error .paymentsApiError
  | .ok completed_payments =>
    match sumAmounts completed_payments with
    | .error e => .error (.uncaught e)
    | .ok total_revenue =>
      match customerNames completed_payments with
      | .error e => .error (.uncaught e)
      | .ok customers =>
        .ok { total_revenue := total_revenue
              invoice_count := completed_payments.length
              customers := customers }

/-- Upstream rows for the spec's reconciliation example — 100 Alice, 200 Bob,
150 Alice — with the amounts already plain numbers, the reading most
favourable to the claim. -/
def wUpstreamRows : List (List (String × PyVal)) :=
  [ [("payment_reference", .str "pay_001"), ("amount", .num 100),
     ("first_name", .str "Alice"), ("last_name", .str "Smith")],
    [("payment_reference", .str "pay_002"), ("amount", .num 200),
     ("first_name", .str "Bob"), ("last_name", .str "Jones")],
    [("payment_reference", .str "pay_003"), ("amount", .num 150),
     ("first_name", .str "Alice"), ("last_name", .str "Smith")] ]

/-- The reshaped records `list_completed_payments` produces for those rows:
keys `payment_reference`, `amount`, `first_name`, `last_name` only. -/
def wCompletedPayments : List (List (String × PyVal)) :=
  [ [("payment_reference", .str "pay_001"), ("amount", .num 100),
     ("first_name", .str "Alice"), ("last_name", .str "Smith")],
    [("payment_reference", .str "pay_002"), ("amount", .num 200),
     ("first_name", .str "Bob"), ("last_name", .str "Jones")],
    [("payment_reference", .str "pay_003"), ("amount", .num 150),
     ("first_name", .str "Alice"), ("last_name", .str "Smith")] ]

theorem roundHalfEven_intCast (m : ℤ) : roundHalfEven (m : ℚ) = m := by
  unfold roundHalfEven
  simp

theorem decMult_zero (n : ℕ) : DecMult n 0 :=
  ⟨0, by simp⟩

theorem decMult_add {n : ℕ} {a b : ℚ} (ha : DecMult n a) (hb : DecMult n b) :
    DecMult n (a + b) := by
  obtain ⟨ma, hma⟩ := ha
  obtain ⟨mb, hmb⟩ := hb
  refine ⟨ma + mb, ?_⟩
  have h10 : ((10 : ℚ) ^ n) ≠ 0 := by positivity
  field_simp [hma, hmb]

theorem decMult_pyRound (q : ℚ) (n : ℕ) : DecMult n (pyRound q n) :=
  ⟨roundHalfEven (q * 10 ^ n), rfl⟩

theorem pyRound_eq_self {n : ℕ} {q : ℚ} (h : DecMult n q) : pyRound q n = q := by
  obtain ⟨m, rfl⟩ := h
  have h10 : ((10 : ℚ) ^ n) ≠ 0 := by positivity
  unfold pyRound
  rw [div_mul_cancel₀ _ h10, roundHalfEven_intCast]

theorem decMult_list_sum {n : ℕ} {l : List ℚ} (h : ∀ q ∈ l, DecMult n q) :
    DecMult n l.sum := by
  induction l with
  | nil => simpa using decMult_zero n
  | cons a t ih =>
      rw [List.sum_cons]
      exact decMult_add (h a (List.mem_cons_self a t))
        (ih fun q hq => h q (List.mem_cons_of_mem a hq))

theorem buildLineItem_amount (pricing : Settings) (k : String × String)
    (g : List Session) :
    (buildLineItem pricing k g).amount = pyRound
      (((buildLineItem pricing k g).input_tokens : ℚ) / 1000 * pricing.input_token_price
        + ((buildLineItem pricing k g).output_tokens : ℚ) / 1000 * pricing.output_token_price
        + ((buildLineItem pricing k g).cached_tokens : ℚ) / 1000 * pricing.cached_token_price)
      6 := rfl

theorem generate_invoice_ok_eq (pricing : Settings) (req : GenerateInvoiceRequest)
    (sessions : List Session) (teamsResult : Except Unit (List Team))
    (inv : UsageInvoice)
    (h : generate_invoice pricing req (.ok sessions) teamsResult = .ok inv) :
    inv.line_items = (firstOccKeys (sessions.filter (inPeriod req))).map
        (fun k => buildLineItem pricing k (groupOf (sessions.filter (inPeriod req)) k))
    ∧ inv.subtotal = pyRound ((inv.line_items.map (fun li => li.amount)).sum) 6
    ∧ inv.tax_amount = pyRound (((inv.line_items.map (fun li => li.amount)).sum) * req.tax_rate) 2
    ∧ inv.total_amount = pyRound (((inv.line_items.map (fun li => li.amount)).sum) + inv.tax_amount) 2
    ∧ inv.tax_rate = req.tax_rate
    ∧ inv.total_sessions = (sessions.filter (inPeriod req)).length := by
  unfold generate_invoice at h
  dsimp only at h
  split at h
  · exact absurd h (by simp)
  · injection h with h
    subst h
    refine ⟨rfl, rfl, rfl, rfl, rfl, rfl⟩

theorem line_item_amounts_decMult (pricing : Settings) (ps : List Session) :
    ∀ q ∈ ((firstOccKeys ps).map
        (fun k => buildLineItem pricing k (groupOf ps k))).map (fun li => li.amount),
      DecMult 6 q := by
  intro q hq
  simp only [List.map_map, List.mem_map, Function.comp] at hq
  obtain ⟨k, _, rfl⟩ := hq
  exact decMult_pyRound _ 6

/-- C1: for every non-empty in-period set of usage records, each line-item
amount is `round(input/1000*p_in + output/1000*p_out + cached/1000*p_cached, 6)`,
`tax_amount = round(subtotal * tax_rate, 2)`,
`total_amount = round(subtotal + tax_amount, 2)`, the line-item amounts sum to
the subtotal within `1e-6`, and
`total_amount = round(subtotal + round(subtotal*tax_rate, 2), 2)`. -/
theorem generate_invoice_rounding (pricing : Settings) (req : GenerateInvoiceRequest)
    (sessions : List Session) (teamsResult : Except Unit (List Team))
    (inv : UsageInvoice)
    (h : generate_invoice pricing req (.ok sessions) teamsResult = .ok inv) :
    (∀ li ∈ inv.line_items,
        li.amount = pyRound ((li.input_tokens : ℚ) / 1000 * pricing.input_token_price
          + (li.output_tokens : ℚ) / 1000 * pricing.output_token_price
          + (li.cached_tokens : ℚ) / 1000 * pricing.cached_token_price) 6)
    ∧ inv.tax_amount = pyRound (inv.subtotal * req.tax_rate) 2
    ∧ inv.total_amount = pyRound (inv.subtotal + inv.tax_amount) 2
    ∧ |(inv.line_items.map (fun li => li.amount)).sum - inv.subtotal| ≤ 1/1000000
    ∧ inv.total_amount
        = pyRound (inv.subtotal + pyRound (inv.subtotal * req.tax_rate) 2) 2 := by
  obtain ⟨hitems, hsub, htax, htotal, -, -⟩ :=
    generate_invoice_ok_eq pricing req sessions teamsResult inv h
  have hsum : DecMult 6 ((inv.line_items.map (fun li => li.amount)).sum) := by
    refine decMult_list_sum ?_
    rw [hitems]
    exact line_item_amounts_decMult pricing (sessions.filter (inPeriod req))
  have hsub' : inv.subtotal = (inv.line_items.map (fun li => li.amount)).sum := by
    rw [hsub, pyRound_eq_self hsum]
  refine ⟨?_, ?_, ?_, ?_, ?_⟩
  · intro li hli
    rw [hitems] at hli
    simp only [List.mem_map] at hli
    obtain ⟨k, -, rfl⟩ := hli
    exact buildLineItem_amount pricing k _
  · rw [htax, hsub']
  · rw [htotal, hsub']
  · rw [hsub']
    simp
  · rw [htotal, htax, hsub']

theorem wInvoice_ok : generate_invoice defaultSettings wReq (.ok wSessions) (.ok wTeams)
    = .ok wInvoice := by
  unfold wInvoice generate_invoice
  dsimp only
  split
  · next h => exact absurd h (by decide)
  · rfl

theorem generate_invoice_rounding_witness :
    generate_invoice defaultSettings wReq (.ok wSessions) (.ok wTeams) = .ok wInvoice
    ∧ ((∀ li ∈ wInvoice.line_items,
        li.amount = pyRound ((li.input_tokens : ℚ) / 1000 * defaultSettings.input_token_price
          + (li.output_tokens : ℚ) / 1000 * defaultSettings.output_token_price
          + (li.cached_tokens : ℚ) / 1000 * defaultSettings.cached_token_price) 6)
      ∧ wInvoice.tax_amount = pyRound (wInvoice.subtotal * wReq.tax_rate) 2
      ∧ wInvoice.total_amount = pyRound (wInvoice.subtotal + wInvoice.tax_amount) 2
      ∧ |(wInvoice.line_items.map (fun li => li.amount)).sum - wInvoice.subtotal| ≤ 1/1000000
      ∧ wInvoice.total_amount
          = pyRound (wInvoice.subtotal + pyRound (wInvoice.subtotal * wReq.tax_rate) 2) 2) :=
  ⟨wInvoice_ok,
    generate_invoice_rounding defaultSettings wReq wSessions (.ok wTeams) wInvoice wInvoice_ok⟩

/-- C2: `generate_invoice` keeps exactly the records whose `started_at` lies in
`[period_start, period_end]`, both boundaries inclusive, and records outside
the interval affect nothing: the result over any record list equals the result
over its in-period sublist. -/
theorem generate_invoice_period (pricing : Settings) (req : GenerateInvoiceRequest)
    (sessions : List Session) (teamsResult : Except Unit (List Team)) :
    (∀ s, s ∈ sessions.filter (inPeriod req) ↔
        s ∈ sessions ∧ req.period_start ≤ s.started_at ∧ s.started_at ≤ req.period_end)
    ∧ generate_invoice pricing req (.ok sessions) teamsResult
        = generate_invoice pricing req (.ok (sessions.filter (inPeriod req))) teamsResult := by
  constructor
  · intro s
    simp [List.mem_filter, inPeriod, and_assoc]
  · have hidem : (sessions.filter (inPeriod req)).filter (inPeriod req)
        = sessions.filter (inPeriod req) := by
      rw [List.filter_filter]
      simp
    unfold generate_invoice
    dsimp only
    rw [hidem]

/-- C3: when no record's `started_at` lies in `[period_start, period_end]`,
`generate_invoice` signals the no-usage-in-period error, surfaced with HTTP
status 404 (not-found), and produces no invoice. -/
theorem generate_invoice_empty_period (pricing : Settings) (req : GenerateInvoiceRequest)
    (sessions : List Session) (teamsResult : Except Unit (List Team))
    (h : ∀ s ∈ sessions, ¬(req.period_start ≤ s.started_at ∧ s.started_at ≤ req.period_end)) :
    generate_invoice pricing req (.ok sessions) teamsResult = .error .noSessionsInPeriod
    ∧ GenError.noSessionsInPeriod.httpStatus = 404
    ∧ ∀ inv : UsageInvoice,
        generate_invoice pricing req (.ok sessions) teamsResult ≠ .ok inv := by
  have hnil : sessions.filter (inPeriod req) = [] := by
    rw [List.filter_eq_nil_iff]
    intro s hs
    have := h s hs
    simp only [inPeriod, Bool.and_eq_true, decide_eq_true_eq]
    tauto
  have hmain : generate_invoice pricing req (.ok sessions) teamsResult
      = .error .noSessionsInPeriod := by
    unfold generate_invoice
    dsimp only
    rw [hnil]
    rfl
  exact ⟨hmain, rfl, fun inv hinv => by rw [hmain] at hinv; exact Except.noConfusion hinv⟩

theorem generate_invoice_empty_period_witness :
    (∀ s ∈ wSessions, ¬((2000 : ℤ) ≤ s.started_at ∧ s.started_at ≤ 3000))
    ∧ (generate_invoice defaultSettings
        { team_id := "team_eng", period_start := 2000, period_end := 3000
          tax_rate := 1/10, notes := none } (.ok wSessions) (.ok wTeams)
          = .error .noSessionsInPeriod
      ∧ GenError.noSessionsInPeriod.httpStatus = 404
      ∧ ∀ inv : UsageInvoice,
          generate_invoice defaultSettings
            { team_id := "team_eng", period_start := 2000, period_end := 3000
              tax_rate := 1/10, notes := none } (.ok wSessions) (.ok wTeams) ≠ .ok inv) :=
  ⟨by decide,
    generate_invoice_empty_period defaultSettings
      { team_id := "team_eng", period_start := 2000, period_end := 3000
        tax_rate := 1/10, notes := none } wSessions (.ok wTeams) (by decide)⟩

theorem foldl_insert_nodup (ss : List Session) (acc : List (String × String))
    (h : acc.Nodup) :
    (ss.foldl (fun ks s => if sessionKey s ∈ ks then ks else ks ++ [sessionKey s]) acc).Nodup := by
  induction ss generalizing acc with
  | nil => simpa using h
  | cons s t ih =>
      rw [List.foldl_cons]
      by_cases hk : sessionKey s ∈ acc
      · rw [if_pos hk]
        exact ih acc h
      · rw [if_neg hk]
        refine ih _ ?_
        simp [List.nodup_append, h, hk]

theorem mem_foldl_insert (ss : List Session) (acc : List (String × String))
    (k : String × String) :
    k ∈ ss.foldl (fun ks s => if sessionKey s ∈ ks then ks else ks ++ [sessionKey s]) acc
      ↔ k ∈ acc ∨ k ∈ ss.map sessionKey := by
  induction ss generalizing acc with
  | nil => simp
  | cons s t ih =>
      rw [List.foldl_cons]
      by_cases hk : sessionKey s ∈ acc
      · rw [if_pos hk, ih]
        simp only [List.map_cons, List.mem_cons]
        constructor
        · rintro (h | h)
          · exact Or.inl h
          · exact Or.inr (Or.inr h)
        · rintro (h | h | h)
          · exact Or.inl h
          · exact Or.inl (h ▸ hk)
          · exact Or.inr h
      · rw [if_neg hk, ih]
        simp only [List.mem_append, List.mem_singleton, List.map_cons, List.mem_cons]
        tauto

theorem firstOccKeys_nodup (ss : List Session) : (firstOccKeys ss).Nodup :=
  foldl_insert_nodup ss [] List.nodup_nil

theorem mem_firstOccKeys (ss : List Session) (k : String × String) :
    k ∈ firstOccKeys ss ↔ k ∈ ss.map sessionKey := by
  rw [firstOccKeys, mem_foldl_insert]
  simp

/-- C4: the invoice has exactly one line item per distinct
`(agent_name, model)` pair among in-period records (missing names default to
the literal string "unknown", via `sessionKey`), the line items are ordered by
first occurrence of their pair, and each line item's session count and token
counts are the exact sums over its group's records. -/
theorem generate_invoice_grouping (pricing : Settings) (req : GenerateInvoiceRequest)
    (sessions : List Session) (teamsResult : Except Unit (List Team))
    (inv : UsageInvoice)
    (h : generate_invoice pricing req (.ok sessions) teamsResult = .ok inv) :
    (∀ s : Session, sessionKey s = (s.agent_name.getD "unknown", s.model.getD "unknown"))
    ∧ inv.line_items.map (fun li => (li.agent_name, li.model))
        = firstOccKeys (sessions.filter (inPeriod req))
    ∧ (inv.line_items.map (fun li => (li.agent_name, li.model))).Nodup
    ∧ (∀ k, k ∈ inv.line_items.map (fun li => (li.agent_name, li.model))
        ↔ k ∈ (sessions.filter (inPeriod req)).map sessionKey)
    ∧ ∀ li ∈ inv.line_items,
        li.session_count
            = (groupOf (sessions.filter (inPeriod req)) (li.agent_name, li.model)).length
        ∧ li.input_tokens = ((groupOf (sessions.filter (inPeriod req))
            (li.agent_name, li.model)).map (fun s => s.input_tokens.getD 0)).sum
        ∧ li.output_tokens = ((groupOf (sessions.filter (inPeriod req))
            (li.agent_name, li.model)).map (fun s => s.output_tokens.getD 0)).sum
        ∧ li.cached_tokens = ((groupOf (sessions.filter (inPeriod req))
            (li.agent_name, li.model)).map (fun s => s.cached_tokens.getD 0)).sum := by
  obtain ⟨hitems, -, -, -, -, -⟩ :=
    generate_invoice_ok_eq pricing req sessions teamsResult inv h
  have hmap : inv.line_items.map (fun li => (li.agent_name, li.model))
      = firstOccKeys (sessions.filter (inPeriod req)) := by
    rw [hitems, List.map_map]
    have : ((fun li : UsageLineItem => (li.agent_name, li.model)) ∘
        (fun k => buildLineItem pricing k (groupOf (sessions.filter (inPeriod req)) k)))
        = id := by
      funext k
      rfl
    rw [this, List.map_id]
  refine ⟨fun _ => rfl, hmap, ?_, ?_, ?_⟩
  · rw [hmap]
    exact firstOccKeys_nodup _
  · intro k
    rw [hmap]
    exact mem_firstOccKeys _ k
  · intro li hli
    rw [hitems] at hli
    simp only [List.mem_map] at hli
    obtain ⟨k, -, rfl⟩ := hli
    exact ⟨rfl, rfl, rfl, rfl⟩

theorem generate_invoice_grouping_witness :
    generate_invoice defaultSettings wReq (.ok wSessions) (.ok wTeams) = .ok wInvoice
    ∧ ((∀ s : Session, sessionKey s = (s.agent_name.getD "unknown", s.model.getD "unknown"))
      ∧ wInvoice.line_items.map (fun li => (li.agent_name, li.model))
          = firstOccKeys (wSessions.filter (inPeriod wReq))
      ∧ (wInvoice.line_items.map (fun li => (li.agent_name, li.model))).Nodup
      ∧ (∀ k, k ∈ wInvoice.line_items.map (fun li => (li.agent_name, li.model))
          ↔ k ∈ (wSessions.filter (inPeriod wReq)).map sessionKey)
      ∧ ∀ li ∈ wInvoice.line_items,
          li.session_count
              = (groupOf (wSessions.filter (inPeriod wReq)) (li.agent_name, li.model)).length
          ∧ li.input_tokens = ((groupOf (wSessions.filter (inPeriod wReq))
              (li.agent_name, li.model)).map (fun s => s.input_tokens.getD 0)).sum
          ∧ li.output_tokens = ((groupOf (wSessions.filter (inPeriod wReq))
              (li.agent_name, li.model)).map (fun s => s.output_tokens.getD 0)).sum
          ∧ li.cached_tokens = ((groupOf (wSessions.filter (inPeriod wReq))
              (li.agent_name, li.model)).map (fun s => s.cached_tokens.getD 0)).sum) :=
  ⟨wInvoice_ok,
    generate_invoice_grouping defaultSettings wReq wSessions (.ok wTeams) wInvoice wInvoice_ok⟩

/-- C10 counterexample: the API accepts an update from `paid` back to `draft`:
`update_invoice_status` on a paid invoice with status string "draft" succeeds
and yields a draft invoice — a backward move, so no forward-only transition
discipline is enforced. -/
theorem update_invoice_status_backward :
    wPaidInvoice.status = .paid
    ∧ update_invoice_status (some wPaidInvoice) "draft"
        = .ok { wPaidInvoice with status := .draft }
    ∧ statusRank .draft < statusRank wPaidInvoice.status :=
  ⟨rfl, rfl, by decide⟩

/-- C10 amended: `update_invoice_status` enforces no transition discipline:
for any stored invoice and any of the five valid status strings it
unconditionally overwrites the status with the requested one (backward moves
included); only unknown status strings and unknown invoice ids are rejected. -/
theorem update_invoice_status_unconditional (invoice : UsageInvoice)
    (status : String) (st : InvoiceStatus)
    (h : InvoiceStatus.fromString status = some st) :
    update_invoice_status (some invoice) status = .ok { invoice with status := st }
    ∧ (update_invoice_status none status = .error .notFound)
    ∧ (∀ s, InvoiceStatus.fromString s = none →
        update_invoice_status (some invoice) s = .error .valueError) := by
  refine ⟨?_, rfl, ?_⟩
  · unfold update_invoice_status
    rw [h]
  · intro s hs
    unfold update_invoice_status
    rw [hs]

theorem update_invoice_status_unconditional_witness :
    InvoiceStatus.fromString "draft" = some .draft
    ∧ (update_invoice_status (some wPaidInvoice) "draft"
          = .ok { wPaidInvoice with status := .draft }
      ∧ (update_invoice_status none "draft" = .error .notFound)
      ∧ (∀ s, InvoiceStatus.fromString s = none →
          update_invoice_status (some wPaidInvoice) s = .error .valueError)) :=
  ⟨rfl, update_invoice_status_unconditional wPaidInvoice "draft" .draft rfl⟩

/-- C5: when the gateway cost/team fetch fails, `billing_summary` still
returns the summary — `total_revenue` is the sum of the stored invoices'
totals, `total_invoices` their count, and the status breakdown is the same as
with a successful fetch — while `top_teams` is empty; the failure never aborts
summary generation. -/
theorem billing_summary_degraded (invoices : List UsageInvoice)
    (g : List CostEntry × List Team) :
    (billing_summary invoices (.error ())).top_teams = []
    ∧ (billing_summary invoices (.error ())).total_revenue
        = (invoices.map (fun i => i.total_amount)).sum
    ∧ (billing_summary invoices (.error ())).total_invoices = invoices.length
    ∧ (billing_summary invoices (.error ())).invoices_by_status = statusCounts invoices
    ∧ (billing_summary invoices (.error ())).total_revenue
        = (billing_summary invoices (.ok g)).total_revenue
    ∧ (billing_summary invoices (.error ())).total_invoices
        = (billing_summary invoices (.ok g)).total_invoices
    ∧ (billing_summary invoices (.error ())).invoices_by_status
        = (billing_summary invoices (.ok g)).invoices_by_status :=
  ⟨rfl, rfl, rfl, rfl, rfl, rfl, rfl⟩

theorem dictIndex_ok {d : List (String × PyVal)} {k : String} {v : PyVal}
    (h : dictGet d k = some v) : dictIndex d k = .ok v := by
  unfold dictIndex
  rw [h]

theorem dictIndex_missing {d : List (String × PyVal)} {k : String}
    (h : dictGet d k = none) : dictIndex d k = .error (.keyError k) := by
  unfold dictIndex
  rw [h]

/-- C7: on a payment record with a nested numeric amount, string names and a
string reference, `from_payment` yields the invoice with customer name
`"{first_name} {last_name}".strip()`, exactly one line item
`("Payment {reference}", amount, reference)`, `total_amount` equal to the
amount, status `issued` and `issued_at` set. -/
theorem from_payment_shape (invoice_id : String) (now : ℤ)
    (payment_data adict : List (String × PyVal)) (a : ℚ) (fn ln ref : String)
    (hamt : dictGet payment_data "amount" = some (.dict adict))
    (hval : dictGet adict "value" = some (.num a))
    (hfn : dictGet payment_data "first_name" = some (.str fn))
    (hln : dictGet payment_data "last_name" = some (.str ln))
    (href : dictGet payment_data "payment_reference" = some (.str ref)) :
    from_payment invoice_id now payment_data = .ok
      { invoice_id := invoice_id
        customer_name := (fn ++ " " ++ ln).trim
        line_items := [{ description := "Payment " ++ ref
                         amount := .num a
                         payment_transaction_id := .str ref }]
        status := .issued
        issued_at := some now
        total_amount := .num a } := by
  unfold from_payment
  rw [dictIndex_ok hamt]
  show (getIndex (.dict adict) "value" >>= _) = _
  rw [show getIndex (.dict adict) "value" = dictIndex adict "value" from rfl,
    dictIndex_ok hval]
  show (dictIndex payment_data "first_name" >>= _) = _
  rw [dictIndex_ok hfn]
  show (dictIndex payment_data "last_name" >>= _) = _
  rw [dictIndex_ok hln]
  show (dictIndex payment_data "payment_reference" >>= _) = _
  rw [dictIndex_ok href]
  rfl

theorem from_payment_shape_witness :
    (dictGet wPayment "amount" = some (.dict [("value", .num 100), ("currency", .str "USD")])
      ∧ dictGet [("value", PyVal.num 100), ("currency", PyVal.str "USD")] "value"
          = some (.num 100)
      ∧ dictGet wPayment "first_name" = some (.str "Alice")
      ∧ dictGet wPayment "last_name" = some (.str "Smith")
      ∧ dictGet wPayment "payment_reference" = some (.str "pay_001"))
    ∧ from_payment "inv_1" 7 wPayment = .ok
      { invoice_id := "inv_1"
        customer_name := ("Alice" ++ " " ++ "Smith").trim
        line_items := [{ description := "Payment " ++ "pay_001"
                         amount := .num 100
                         payment_transaction_id := .str "pay_001" }]
        status := .issued
        issued_at := some 7
        total_amount := .num 100 } :=
  ⟨⟨rfl, rfl, rfl, rfl, rfl⟩,
    from_payment_shape "inv_1" 7 wPayment _ 100 "Alice" "Smith" "pay_001"
      rfl rfl rfl rfl rfl⟩

/-- C9: a payment record missing a required field makes `from_payment` fail
with the missing-field error naming that field (the first one accessed, in
source order: amount, amount.value, first_name, last_name,
payment_reference), not succeed and not fail in another way. -/
theorem from_payment_missing_field (invoice_id : String) (now : ℤ)
    (payment_data : List (String × PyVal)) :
    (dictGet payment_data "amount" = none →
        from_payment invoice_id now payment_data = .error (.keyError "amount"))
    ∧ (∀ adict : List (String × PyVal),
        dictGet payment_data "amount" = some (.dict adict) →
        dictGet adict "value" = none →
        from_payment invoice_id now payment_data = .error (.keyError "value"))
    ∧ (∀ amount : PyVal,
        (dictIndex payment_data "amount" >>= fun v => getIndex v "value") = .ok amount →
        dictGet payment_data "first_name" = none →
        from_payment invoice_id now payment_data = .error (.keyError "first_name"))
    ∧ (∀ (amount fn : PyVal),
        (dictIndex payment_data "amount" >>= fun v => getIndex v "value") = .ok amount →
        dictGet payment_data "first_name" = some fn →
        dictGet payment_data "last_name" = none →
        from_payment invoice_id now payment_data = .error (.keyError "last_name"))
    ∧ (∀ (amount fn ln : PyVal),
        (dictIndex payment_data "amount" >>= fun v => getIndex v "value") = .ok amount →
        dictGet payment_data "first_name" = some fn →
        dictGet payment_data "last_name" = some ln →
        dictGet payment_data "payment_reference" = none →
        from_payment invoice_id now payment_data = .error (.keyError "payment_reference")) := by
  refine ⟨?_, ?_, ?_, ?_, ?_⟩
  · intro h
    unfold from_payment
    rw [dictIndex_missing h]
    rfl
  · intro adict ha hv
    unfold from_payment
    rw [dictIndex_ok ha]
    show (getIndex (.dict adict) "value" >>= _) = _
    rw [show getIndex (.dict adict) "value" = dictIndex adict "value" from rfl,
      dictIndex_missing hv]
    rfl
  · intro amount hamt h
    unfold from_payment
    rw [hamt]
    show (dictIndex payment_data "first_name" >>= _) = _
    rw [dictIndex_missing h]
    rfl
  · intro amount fn hamt hfn h
    unfold from_payment
    rw [hamt]
    show (dictIndex payment_data "first_name" >>= _) = _
    rw [dictIndex_ok hfn]
    show (dictIndex payment_data "last_name" >>= _) = _
    rw [dictIndex_missing h]
    rfl
  · intro amount fn ln hamt hfn hln h
    unfold from_payment
    rw [hamt]
    show (dictIndex payment_data "first_name" >>= _) = _
    rw [dictIndex_ok hfn]
    show (dictIndex payment_data "last_name" >>= _) = _
    rw [dictIndex_ok hln]
    show (dictIndex payment_data "payment_reference" >>= _) = _
    rw [dictIndex_missing h]
    rfl

theorem from_payment_missing_field_witness :
    (dictGet wPaymentNoAmount "amount" = none
      ∧ from_payment "inv_1" 0 wPaymentNoAmount = .error (.keyError "amount"))
    ∧ (dictGet wPaymentNoValue "amount" = some (.dict [("currency", .str "USD")])
      ∧ from_payment "inv_1" 0 wPaymentNoValue = .error (.keyError "value"))
    ∧ (dictGet wPaymentNoFirst "first_name" = none
      ∧ from_payment "inv_1" 0 wPaymentNoFirst = .error (.keyError "first_name"))
    ∧ (dictGet wPaymentNoLast "last_name" = none
      ∧ from_payment "inv_1" 0 wPaymentNoLast = .error (.keyError "last_name"))
    ∧ (dictGet wPaymentNoRef "payment_reference" = none
      ∧ from_payment "inv_1" 0 wPaymentNoRef = .error (.keyError "payment_reference")) :=
  ⟨⟨rfl, (from_payment_missing_field "inv_1" 0 wPaymentNoAmount).1 rfl⟩,
   ⟨rfl, (from_payment_missing_field "inv_1" 0 wPaymentNoValue).2.1 _ rfl rfl⟩,
   ⟨rfl, (from_payment_missing_field "inv_1" 0 wPaymentNoFirst).2.2.1 (.num 100) rfl rfl⟩,
   ⟨rfl, (from_payment_missing_field "inv_1" 0 wPaymentNoLast).2.2.2.1 (.num 100)
      (.str "Alice") rfl rfl rfl⟩,
   ⟨rfl, (from_payment_missing_field "inv_1" 0 wPaymentNoRef).2.2.2.2 (.num 100)
      (.str "Alice") (.str "Smith") rfl rfl rfl rfl⟩⟩

theorem add_payment_ok (self : PaymentInvoice) (p d : List (String × PyVal))
    (a t : ℚ) (r : String)
    (htot : self.total_amount = .num t)
    (hr : dictGet p "payment_reference" = some (.str r))
    (ha : dictGet p "amount" = some (.dict d))
    (hv : dictGet d "value" = some (.num a)) :
    add_payment self p = .ok { self with
      line_items := self.line_items ++ [{ description := "Payment " ++ r
                                          amount := .num a
                                          payment_transaction_id := .str r }]
      total_amount := .num (t + a) } := by
  unfold add_payment
  rw [dictIndex_ok hr]
  show ((dictIndex p "amount" >>= fun v => getIndex v "value") >>= _) = _
  rw [dictIndex_ok ha]
  show (getIndex (.dict d) "value" >>= _) = _
  rw [show getIndex (.dict d) "value" = dictIndex d "value" from rfl, dictIndex_ok hv]
  show (pyAdd self.total_amount (.num a) >>= _) = _
  rw [htot]
  rfl

/-- C8: `add_payment` appends its line item after the existing ones, leaving
them untouched, and adds the payment's amount onto `total_amount`; adding
payment 1 then payment 2 gives the same `total_amount` as payment 2 then
payment 1, while the line items appear in exactly the append order of each
run. -/
theorem add_payment_append_commute (inv : PaymentInvoice) (t : ℚ)
    (p1 p2 d1 d2 : List (String × PyVal)) (a1 a2 : ℚ) (r1 r2 : String)
    (htot : inv.total_amount = .num t)
    (h1r : dictGet p1 "payment_reference" = some (.str r1))
    (h1a : dictGet p1 "amount" = some (.dict d1))
    (h1v : dictGet d1 "value" = some (.num a1))
    (h2r : dictGet p2 "payment_reference" = some (.str r2))
    (h2a : dictGet p2 "amount" = some (.dict d2))
    (h2v : dictGet d2 "value" = some (.num a2)) :
    add_payment inv p1 = .ok { inv with
        line_items := inv.line_items ++ [{ description := "Payment " ++ r1
                                           amount := .num a1
                                           payment_transaction_id := .str r1 }]
        total_amount := .num (t + a1) }
    ∧ (add_payment inv p1 >>= fun i => add_payment i p2) = .ok { inv with
        line_items := inv.line_items
          ++ [{ description := "Payment " ++ r1, amount := .num a1
                payment_transaction_id := .str r1 },
              { description := "Payment " ++ r2, amount := .num a2
                payment_transaction_id := .str r2 }]
        total_amount := .num (t + a1 + a2) }
    ∧ (add_payment inv p2 >>= fun i => add_payment i p1) = .ok { inv with
        line_items := inv.line_items
          ++ [{ description := "Payment " ++ r2, amount := .num a2
                payment_transaction_id := .str r2 },
              { description := "Payment " ++ r1, amount := .num a1
                payment_transaction_id := .str r1 }]
        total_amount := .num (t + a2 + a1) }
    ∧ Except.map (fun i => i.total_amount) (add_payment inv p1 >>= fun i => add_payment i p2)
        = Except.map (fun i => i.total_amount)
            (add_payment inv p2 >>= fun i => add_payment i p1) := by
  have s1 := add_payment_ok inv p1 d1 a1 t r1 htot h1r h1a h1v
  have s2 := add_payment_ok inv p2 d2 a2 t r2 htot h2r h2a h2v
  have s12 : (add_payment inv p1 >>= fun i => add_payment i p2) = .ok { inv with
      line_items := inv.line_items
        ++ [{ description := "Payment " ++ r1, amount := .num a1
              payment_transaction_id := .str r1 },
            { description := "Payment " ++ r2, amount := .num a2
              payment_transaction_id := .str r2 }]
      total_amount := .num (t + a1 + a2) } := by
    rw [s1]
    show add_payment _ p2 = _
    rw [add_payment_ok _ p2 d2 a2 (t + a1) r2 rfl h2r h2a h2v]
    simp
  have s21 : (add_payment inv p2 >>= fun i => add_payment i p1) = .ok { inv with
      line_items := inv.line_items
        ++ [{ description := "Payment " ++ r2, amount := .num a2
              payment_transaction_id := .str r2 },
            { description := "Payment " ++ r1, amount := .num a1
              payment_transaction_id := .str r1 }]
      total_amount := .num (t + a2 + a1) } := by
    rw [s2]
    show add_payment _ p1 = _
    rw [add_payment_ok _ p1 d1 a1 (t + a2) r1 rfl h1r h1a h1v]
    simp
  refine ⟨s1, s12, s21, ?_⟩
  rw [s12, s21]
  have : t + a1 + a2 = t + a2 + a1 := by ring
  rw [this]
  rfl

theorem add_payment_append_commute_witness :
    (wBaseInvoice.total_amount = PyVal.num 10
      ∧ dictGet wPayment "payment_reference" = some (.str "pay_001")
      ∧ dictGet wPayment "amount"
          = some (.dict [("value", .num 100), ("currency", .str "USD")])
      ∧ dictGet [("value", PyVal.num 100), ("currency", PyVal.str "USD")] "value"
          = some (.num 100)
      ∧ dictGet wPayment2 "payment_reference" = some (.str "pay_002")
      ∧ dictGet wPayment2 "amount"
          = some (.dict [("value", .num 55), ("currency", .str "USD")])
      ∧ dictGet [("value", PyVal.num 55), ("currency", PyVal.str "USD")] "value"
          = some (.num 55))
    ∧ (add_payment wBaseInvoice wPayment = .ok { wBaseInvoice with
        line_items := wBaseInvoice.line_items
          ++ [{ description := "Payment " ++ "pay_001", amount := .num 100
                payment_transaction_id := .str "pay_001" }]
        total_amount := .num (10 + 100) }
      ∧ (add_payment wBaseInvoice wPayment >>= fun i => add_payment i wPayment2)
          = .ok { wBaseInvoice with
              line_items := wBaseInvoice.line_items
                ++ [{ description := "Payment " ++ "pay_001", amount := .num 100
                      payment_transaction_id := .str "pay_001" },
                    { description := "Payment " ++ "pay_002", amount := .num 55
                      payment_transaction_id := .str "pay_002" }]
              total_amount := .num (10 + 100 + 55) }
      ∧ (add_payment wBaseInvoice wPayment2 >>= fun i => add_payment i wPayment)
          = .ok { wBaseInvoice with
              line_items := wBaseInvoice.line_items
                ++ [{ description := "Payment " ++ "pay_002", amount := .num 55
                      payment_transaction_id := .str "pay_002" },
                    { description := "Payment " ++ "pay_001", amount := .num 100
                      payment_transaction_id := .str "pay_001" }]
              total_amount := .num (10 + 55 + 100) }
      ∧ Except.map (fun i => i.total_amount)
            (add_payment wBaseInvoice wPayment >>= fun i => add_payment i wPayment2)
          = Except.map (fun i => i.total_amount)
            (add_payment wBaseInvoice wPayment2 >>= fun i => add_payment i wPayment)) :=
  ⟨⟨rfl, rfl, rfl, rfl, rfl, rfl, rfl⟩,
    add_payment_append_commute wBaseInvoice 10 wPayment wPayment2
      [("value", .num 100), ("currency", .str "USD")]
      [("value", .num 55), ("currency", .str "USD")]
      100 55 "pay_001" "pay_002" rfl rfl rfl rfl rfl rfl rfl⟩

/-- C6: on the spec's own example the reconciliation route cannot return the
claimed summary: `list_completed_payments` emits records carrying
`first_name`/`last_name` and never `customer_name`, the amounts do sum to 450,
but `get_reconciliation` then reads `p["customer_name"]` and dies with an
uncaught `KeyError("customer_name")` instead of returning
`total_revenue = 450, invoice_count = 3, customers = {Alice, Bob}`. -/
theorem get_reconciliation_customer_name_bug :
    list_completed_payments wUpstreamRows = .ok wCompletedPayments
    ∧ sumAmounts wCompletedPayments = .ok (.num 450)
    ∧ get_reconciliation (.ok wCompletedPayments)
        = .error (.uncaught (.keyError "customer_name"))
    ∧ get_reconciliation (.ok wCompletedPayments)
        ≠ .ok { total_revenue := .num 450
                invoice_count := 3
                customers := [.str "Alice", .str "Bob"] } := by
  have hval : (0 : ℚ) + 100 + 200 + 150 = 450 := by norm_num
  have hsum : sumAmounts wCompletedPayments = .ok (.num 450) := by
    calc sumAmounts wCompletedPayments
        = .ok (.num ((0 : ℚ) + 100 + 200 + 150)) := rfl
      _ = .ok (.num 450) := by rw [hval]
  have hnames : customerNames wCompletedPayments
      = .error (.keyError "customer_name") := rfl
  refine ⟨rfl, hsum, ?_, ?_⟩
  · unfold get_reconciliation
    dsimp only
    rw [hsum, hnames]
  · unfold get_reconciliation
    dsimp only
    rw [hsum, hnames]
    intro h
    exact Except.noConfusion h

end Billing
